import Mathlib

/-!
Shallow embedding of the TFRT kernel-fallback compat execution engine
(tensorflow/core/runtime_fallback/kernel/kernel_fallback_execute_compat.cc).

The legacy tensorflow data types, status codes and the external collaborators
(the opaque OpKernelRunner, the TFRT async-value primitives) are modelled with
just enough structure to state the behavior of the code in this file: tensors
carry a dtype and an opaque payload, async values are either unconstructed,
available (with a tensor or chain payload) or an error carrying a translated
classification and a message.
-/

namespace KernelFallback

/-- Legacy tensor element types (a representative subset of the tensorflow
DataType enum; the engine only compares them for equality and prints them). -/
inductive DataType where
  | DT_FLOAT
  | DT_INT32
  | DT_INT64
  | DT_BOOL
  | DT_STRING
  deriving DecidableEq

/-- Printed name of a data type, as used in validation error messages. -/
def DataTypeString : DataType → String
  | .DT_FLOAT => "float"
  | .DT_INT32 => "int32"
  | .DT_INT64 => "int64"
  | .DT_BOOL => "bool"
  | .DT_STRING => "string"

/-- Legacy tensor: a dtype plus an opaque payload standing for the buffer. -/
structure Tensor where
  dtype : DataType
  payload : Nat
  deriving DecidableEq

/-- Legacy tensorflow error codes (the subset this engine produces or
translates). -/
inductive ErrorCode where
  | OK
  | CANCELLED
  | UNKNOWN
  | INVALID_ARGUMENT
  | NOT_FOUND
  | ALREADY_EXISTS
  | INTERNAL
  | UNAVAILABLE
  deriving DecidableEq

/-- Legacy tensorflow Status: an error code plus a message. -/
structure Status where
  code : ErrorCode
  message : String
  deriving DecidableEq

/-- Status::OK(). -/
def Status.OK : Status := ⟨ErrorCode.OK, ""⟩

/-- Status::ok(): true exactly when the code is OK. -/
def Status.ok (s : Status) : Bool := s.code = ErrorCode.OK

/-- errors::InvalidArgument(msg). -/
def errorsInvalidArgument (msg : String) : Status := ⟨ErrorCode.INVALID_ARGUMENT, msg⟩

/-- errors::NotFound(msg). -/
def errorsNotFound (msg : String) : Status := ⟨ErrorCode.NOT_FOUND, msg⟩

/-- errors::Internal(msg). -/
def errorsInternal (msg : String) : Status := ⟨ErrorCode.INTERNAL, msg⟩

/-- TFRT-side error classifications (mirroring tfrt::ErrorCode). -/
inductive TfrtErrorCode where
  | kCancelled
  | kUnknown
  | kInvalidArgument
  | kNotFound
  | kAlreadyExists
  | kInternal
  | kUnavailable
  deriving DecidableEq

/-- Modelled from the spec: the external routine
tfrt::ConvertTfErrorCodeToTfrtErrorCode (declared in
tensorflow/core/tfrt/utils/error_util.h, not under src/) that maps legacy
status codes into the new runtime error classification. -/
def ConvertTfErrorCodeToTfrtErrorCode : ErrorCode → TfrtErrorCode
  | .OK => TfrtErrorCode.kUnknown
  | .CANCELLED => TfrtErrorCode.kCancelled
  | .UNKNOWN => TfrtErrorCode.kUnknown
  | .INVALID_ARGUMENT => TfrtErrorCode.kInvalidArgument
  | .NOT_FOUND => TfrtErrorCode.kNotFound
  | .ALREADY_EXISTS => TfrtErrorCode.kAlreadyExists
  | .INTERNAL => TfrtErrorCode.kInternal
  | .UNAVAILABLE => TfrtErrorCode.kUnavailable

/-- Payload of a TFRT error async value: the translated classification plus
the composed diagnostic message. -/
structure ErrorValue where
  code : TfrtErrorCode
  message : String
  deriving DecidableEq

/-- State of one TFRT async value slot (RCReference of AsyncValue). A slot is
unconstructed until someone emplaces a tensor or chain payload or sets an
error on it. -/
inductive AsyncValue where
  | unconstructed
  | availableTensor (t : Tensor)
  | availableChain
  | error (e : ErrorValue)
  deriving DecidableEq

/-- Message composed by KernelFallbackEmitError and by the async completion
callback: StrCat of a fixed prefix, the op name, a separator and the legacy
status message. -/
def fallbackKernelErrorMessage (op_name : String) (status : Status) : String :=
  "error running kernel fallback kernel " ++ op_name ++ ": " ++ status.message

/-- Error value built by EmitErrorAsync in KernelFallbackEmitError: composed
message plus the translated legacy code. -/
def mkFallbackError (op_name : String) (status : Status) : ErrorValue :=
  ⟨ConvertTfErrorCodeToTfrtErrorCode status.code, fallbackKernelErrorMessage op_name status⟩

/-- Output slot states produced by one dispatch or error-translation step:
the declared result slots and the optional completion-token (op_chain) slot.
The option is none when the caller passed a null op_chain pointer. -/
structure SlotStates where
  results : List AsyncValue
  op_chain : Option AsyncValue
  deriving DecidableEq

/-- KernelFallbackEmitError (kernel_fallback_execute_compat.cc, lines 73-87):
builds one error async value from the op name and status, fills every result
slot with that same value, and overwrites the op_chain slot with it when an
op_chain pointer was supplied. -/
def KernelFallbackEmitError (op_name : String) (op_chain : Option AsyncValue)
    (results : List AsyncValue) (status : Status) : SlotStates :=
  let error : AsyncValue := AsyncValue.error (mkFallbackError op_name status)
  ⟨results.map (fun _ => error), op_chain.map (fun _ => error)⟩

/-- ConvertInputTensors (lines 149-164): convert each argument from the TFRT
tensor representation to a legacy tensor, short-circuiting on the first
failing conversion. Each argument is modelled by the outcome of the external
TFRTTensorToTFTensor call on it. -/
def ConvertInputTensors : List (Except String Tensor) → Except String (List Tensor)
  | [] => Except.ok []
  | Except.error e :: _ => Except.error e
  | Except.ok t :: rest =>
    match ConvertInputTensors rest with
    | Except.error e => Except.error e
    | Except.ok ts => Except.ok (t :: ts)

/-- Dtype-checking loop of ValidateInputTypes (lines 177-185), carrying the
zero-based index of the current element. -/
def validateDtypesFrom (op_name : String) :
    List Tensor → List DataType → Nat → Status
  | [], _, _ => Status.OK
  | _, [], _ => Status.OK
  | t :: ts, ty :: tys, i =>
    if t.dtype ≠ ty then
      errorsInvalidArgument
        ("cannot compute " ++ op_name ++ " as input #" ++ toString i ++
         "(zero-based) was expected to be a " ++ DataTypeString ty ++
         " tensor but is a " ++ DataTypeString t.dtype ++ " tensor")
    else validateDtypesFrom op_name ts tys (i + 1)

/-- ValidateInputTypes (lines 166-188): reject a count mismatch between the
converted inputs and the declared input types, then reject the first element
whose dtype differs from the declared type at its position. -/
def ValidateInputTypes (op_name : String) (input_tf_tensors : List Tensor)
    (input_types : List DataType) : Status :=
  if input_types.length ≠ input_tf_tensors.length then
    errorsInvalidArgument
      ("expected " ++ toString input_types.length ++ " inputs, got " ++
       toString input_tf_tensors.length)
  else validateDtypesFrom op_name input_tf_tensors input_types 0

/-- The opaque legacy kernel runner, reduced to the capabilities the dispatch
code reads: the kernel name, its declared input types, its output count and
whether it completes asynchronously. -/
structure OpKernelRunner where
  kernel_name : String
  input_types : List DataType
  num_outputs : Nat
  is_async : Bool
  deriving DecidableEq

/-- Observable outcome of running the legacy kernel in an OpKernelContext:
the post-call status and the produced output tensors (context.num_outputs consecutive slots; the list length equals the declared output count). -/
structure OpKernelContextResult where
  status : Status
  outputs : List Tensor
  deriving DecidableEq

/-- KernelFallbackExecuteCompatSyncInternal (lines 343-365): run the kernel in
an OpKernelContext sized to the declared output count (the post-run context is
the `run` argument), then either route the failing status through
KernelFallbackEmitError, or move every produced output into its declared
result slot as an available value and make the op_chain available. -/
def KernelFallbackExecuteCompatSyncInternal (kernel_runner : OpKernelRunner)
    (op_chain : Option AsyncValue) (results : List AsyncValue)
    (run : OpKernelContextResult) : SlotStates :=
  if run.status.ok then
    ⟨run.outputs.map AsyncValue.availableTensor,
     op_chain.map (fun _ => AsyncValue.availableChain)⟩
  else
    KernelFallbackEmitError kernel_runner.kernel_name op_chain results run.status

/-- Ordered events of KernelFallbackExecuteCompatAsyncInternal (lines 272-336).
The first three happen on the dispatching thread in this order; the callback
events happen later on whatever thread the legacy runtime completes on, and
queueEmplaceOutputs happens on the owning runtime execution queue after being
enqueued by callbackEnqueueWork. -/
inductive AsyncAction where
  | publishChain
  | publishResults
  | invokeRunAsync
  | callbackSetError
  | callbackEnqueueWork
  | queueEmplaceOutputs
  deriving DecidableEq

/-- Error value built by the async completion callback on a failing status
(lines 313-318): same composition as KernelFallbackEmitError, with the kernel
name taken from context.op_kernel().name(). -/
def asyncCallbackError (kernel_name : String) (status : Status) : ErrorValue :=
  mkFallbackError kernel_name status

/-- Slot states observable from the async dispatch: the declared result slots
and the chain (completion token). -/
structure AsyncSlots where
  results : List AsyncValue
  chain : AsyncValue
  deriving DecidableEq

/-- Effect of one async-path event on the observable slots.  publishChain and
publishResults allocate unconstructed async values into the outward slots;
invokeRunAsync and callbackEnqueueWork change no slot; callbackSetError sets
every result and the chain to the one shared error value; queueEmplaceOutputs
emplaces each produced output and the chain payload. -/
def applyAsyncAction (kernel_name : String) (run : OpKernelContextResult)
    (s : AsyncSlots) : AsyncAction → AsyncSlots
  | AsyncAction.publishChain => ⟨s.results, AsyncValue.unconstructed⟩
  | AsyncAction.publishResults =>
    ⟨s.results.map (fun _ => AsyncValue.unconstructed), s.chain⟩
  | AsyncAction.invokeRunAsync => s
  | AsyncAction.callbackSetError =>
    let e := AsyncValue.error (asyncCallbackError kernel_name run.status)
    ⟨s.results.map (fun _ => e), e⟩
  | AsyncAction.callbackEnqueueWork => s
  | AsyncAction.queueEmplaceOutputs =>
    ⟨run.outputs.map AsyncValue.availableTensor, AsyncValue.availableChain⟩

/-- Fold a sequence of async-path events over the slots. -/
def runAsyncActions (kernel_name : String) (run : OpKernelContextResult)
    (s : AsyncSlots) (actions : List AsyncAction) : AsyncSlots :=
  actions.foldl (applyAsyncAction kernel_name run) s

/-- Event trace of KernelFallbackExecuteCompatAsyncInternal: the chain and the
result slots are published unconstructed, then RunAsync is invoked; when the
completion callback later observes a failing status it sets the shared error
directly (lines 312-322), otherwise it enqueues work onto the owning runtime
queue and that work emplaces the outputs and the chain (lines 325-332). -/
def KernelFallbackExecuteCompatAsyncInternalTrace
    (run : OpKernelContextResult) : List AsyncAction :=
  [AsyncAction.publishChain, AsyncAction.publishResults,
   AsyncAction.invokeRunAsync] ++
  (if run.status.ok then
    [AsyncAction.callbackEnqueueWork, AsyncAction.queueEmplaceOutputs]
  else
    [AsyncAction.callbackSetError])

/-- Environment of one core-runtime dispatch call, abstracting the external
collaborators it consults: whether the per-request
KernelFallbackCompatRequestState is present in the request context, the
outcome of OpKernelRunnerCache::GetOrCreate, and the per-argument outcomes of
TFRTTensorToTFTensor feeding ConvertInputTensors. -/
structure DispatchEnv where
  request_state_present : Bool
  runner_or_status : Except Status OpKernelRunner
  arguments : List (Except String Tensor)

/-- Observable outcome of KernelFallbackExecuteCompatCoreRuntimeDispatch:
the returned result slots and op_chain, whether the legacy runner was
dispatched (none when the call returned before executing it, otherwise
some is_async), the thread-local input_tf_tensors the kernel saw when
dispatched, and the thread-local input_tf_tensors after the call returns. -/
structure CoreDispatchOut where
  results : List AsyncValue
  op_chain : AsyncValue
  executed : Option Bool
  exec_inputs : List Tensor
  scratch_after : List Tensor
  deriving DecidableEq

/-- Completion-token slot of a SlotStates whose op_chain was supplied (the
core dispatch always passes a non-null op_chain pointer). -/
def SlotStates.chainD (s : SlotStates) : AsyncValue :=
  s.op_chain.getD AsyncValue.availableChain

/-- KernelFallbackExecuteCompatCoreRuntimeDispatch (lines 375-465).  op_chain
starts as a ready chain; a missing request state, a failed runner lookup, a
failed input conversion, and a validation failure on a non-exempt op each
route through KernelFallbackEmitError and return without executing the
runner.  Otherwise the thread-local run state receives exactly the converted
inputs (move-assignment replaces its previous contents) and the runner is
dispatched sync or async; the scope cleanup installed right after the run
state is obtained clears its owned tensors on every later exit path.
`scratch0` is the thread-local input_tf_tensors content on entry and `run`
the post-call context outcome of a sync kernel run (unused otherwise). -/
def KernelFallbackExecuteCompatCoreRuntimeDispatch (op_name : String)
    (env : DispatchEnv) (results0 : List AsyncValue) (scratch0 : List Tensor)
    (run : OpKernelContextResult) : CoreDispatchOut :=
  if !env.request_state_present then
    let ee := KernelFallbackEmitError op_name (some AsyncValue.availableChain)
      results0 (errorsNotFound
        "KernelFallbackCompatRequestState not found in RequestContext.")
    ⟨ee.results, ee.chainD, none, [], scratch0⟩
  else
    match env.runner_or_status with
    | Except.error s =>
      let ee := KernelFallbackEmitError op_name (some AsyncValue.availableChain)
        results0 s
      ⟨ee.results, ee.chainD, none, [], scratch0⟩
    | Except.ok kernel_runner =>
      match ConvertInputTensors env.arguments with
      | Except.error e =>
        let ee := KernelFallbackEmitError op_name
          (some AsyncValue.availableChain) results0 (errorsInternal e)
        ⟨ee.results, ee.chainD, none, [], scratch0⟩
      | Except.ok input_tf_tensors =>
        let status := ValidateInputTypes op_name input_tf_tensors
          kernel_runner.input_types
        if !status.ok && op_name ≠ "_BatchFunctionFallback" then
          let ee := KernelFallbackEmitError op_name
            (some AsyncValue.availableChain) results0 status
          ⟨ee.results, ee.chainD, none, [], []⟩
        else
          if kernel_runner.is_async then
            ⟨results0.map (fun _ => AsyncValue.unconstructed),
             AsyncValue.unconstructed, some true, input_tf_tensors, []⟩
          else
            let out := KernelFallbackExecuteCompatSyncInternal kernel_runner
              (some AsyncValue.availableChain) results0 run
            ⟨out.results, out.chainD, some false, input_tf_tensors, []⟩

/-- One argument of the BEF fallback-execute kernel: a FallbackTensor plus
whether the holding async value is uniquely referenced (arg->IsUnique()). -/
structure FallbackArg where
  tensor : Tensor
  is_immutable : Bool
  is_unique : Bool
  deriving DecidableEq

/-- Owned tensor copies pushed into run_state.input_tf_tensors by the
argument-preparation loop of KernelFallbackExecuteOp (lines 630-642): a copy
is kept only for arguments that are neither immutable nor uniquely
referenced. -/
def executeOpOwnedCopies (args : List FallbackArg) : List Tensor :=
  (args.filter (fun a => !a.is_immutable && !a.is_unique)).map (fun a => a.tensor)

/-- Observable outcome of KernelFallbackExecuteOp. `op_chain` keeps the
optional shape of the caller-supplied chain pointer; `exec_inputs` is the
tensor sequence input_tf_tensor_values points at when the runner is
dispatched. -/
structure ExecuteOpOut where
  results : List AsyncValue
  op_chain : Option AsyncValue
  executed : Option Bool
  exec_inputs : List Tensor
  owned_copies : List Tensor
  scratch_after : List Tensor
  deriving DecidableEq

/-- KernelFallbackExecuteOp (lines 581-655), the BEF kernel entry point.  A
missing request state routes a NotFound status through
KernelFallbackEmitError and returns without touching the run state.
Otherwise the runner for the frame op key is taken from the runner table
(DCHECK-guarded non-null, passed here as `kernel_runner`), the scope cleanup
is installed, the input tensor values are rebuilt from the arguments (owned
copies kept only for shared mutable arguments), and the runner is dispatched
sync or async; the cleanup clears the owned tensors on every later exit. -/
def KernelFallbackExecuteOp (op_name : String) (request_state_present : Bool)
    (kernel_runner : OpKernelRunner) (args : List FallbackArg)
    (op_chain : Option AsyncValue) (results0 : List AsyncValue)
    (scratch0 : List Tensor) (run : OpKernelContextResult) : ExecuteOpOut :=
  if !request_state_present then
    let ee := KernelFallbackEmitError op_name op_chain results0
      (errorsNotFound
        "KernelFallbackCompatRequestState not found in RequestContext.")
    ⟨ee.results, ee.op_chain, none, [], [], scratch0⟩
  else
    let input_tf_tensor_values := args.map (fun a => a.tensor)
    let owned := scratch0 ++ executeOpOwnedCopies args
    if kernel_runner.is_async then
      ⟨results0.map (fun _ => AsyncValue.unconstructed),
       op_chain.map (fun _ => AsyncValue.unconstructed), some true,
       input_tf_tensor_values, owned, []⟩
    else
      let out := KernelFallbackExecuteCompatSyncInternal kernel_runner
        op_chain results0 run
      ⟨out.results, out.op_chain, some false, input_tf_tensor_values, owned, []⟩

/-- Modelled from the spec: OpKernelRunnerTable (declared in
op_kernel_runner.h, not under src/), keyed by the 64-bit op key assigned at
graph-build time.  Insert(key, runner) returns failure (false) if the key is
already present, leaving the table unchanged; otherwise it stores the runner
and returns success.  Get(key) returns the stored runner or absence. -/
def RunnerTable := List (Nat × OpKernelRunner)

/-- Modelled from the spec: OpKernelRunnerTable::Get. -/
def RunnerTable.Get (t : RunnerTable) (key : Nat) : Option OpKernelRunner :=
  List.lookup key t

/-- Modelled from the spec: OpKernelRunnerTable::Insert, returning the success
flag together with the table after the call. -/
def RunnerTable.Insert (t : RunnerTable) (key : Nat) (runner : OpKernelRunner) :
    Bool × RunnerTable :=
  match RunnerTable.Get t key with
  | some _ => (false, t)
  | none => (true, (key, runner) :: t)

/-- KernelFallbackCreateOp (lines 659-701): fail when the request state is
missing, surface a failed OpKernelRunner::Create as a status error, and
otherwise insert the runner into the table under the op key, reporting an
already-exists error (and leaving the table as Insert left it) when the key
is taken.  Returns the kernel outcome together with the table after the
call; `statusor_runner` abstracts the external OpKernelRunner::Create. -/
def KernelFallbackCreateOp (request_state_present : Bool)
    (statusor_runner : Except Status OpKernelRunner) (op_key : Nat)
    (op_name_attr : String) (table : RunnerTable) :
    Except String Unit × RunnerTable :=
  if !request_state_present then
    (Except.error
      "KernelFallbackCompatRequestState not found in RequestContext.", table)
  else
    match statusor_runner with
    | Except.error s => (Except.error s.message, table)
    | Except.ok runner =>
      let inserted := RunnerTable.Insert table op_key runner
      if inserted.1 then (Except.ok (), inserted.2)
      else
        (Except.error
          ("KernelFallbackCreateOp: OpKernelRunner already exists: " ++
           op_name_attr), inserted.2)

/-- Immutable tensor wrapper (tfrt_stub::ImmutableTensor): stores the tensor
it was created from; the wrapper is never mutated afterwards. -/
structure ImmutableTensor where
  tensor : Tensor
  deriving DecidableEq

/-- ImmutableTensor::Create. -/
def ImmutableTensor.Create (t : Tensor) : ImmutableTensor := ⟨t⟩

/-- Modelled from the spec: FallbackResourceArray (declared in
kernel_fallback_compat_request_state.h, not under src/), an indexed table of
immutable tensor wrappers; storage grows as needed and an unset index holds
no value. -/
def FallbackResourceArray := List (Option ImmutableTensor)

/-- Modelled from the spec: FallbackResourceArray::SetResource stores the
wrapper at the index, growing the storage with empty slots as needed and
overwriting any previous value (last write wins). -/
def FallbackResourceArray.SetResource :
    FallbackResourceArray → Nat → ImmutableTensor → FallbackResourceArray
  | [], 0, t => [some t]
  | [], Nat.succ n, t => none :: FallbackResourceArray.SetResource [] n t
  | _ :: xs, 0, t => some t :: xs
  | x :: xs, Nat.succ n, t => x :: FallbackResourceArray.SetResource xs n t

/-- Modelled from the spec: FallbackResourceArray::GetResource returns the
value stored at the index (an unset index is DCHECK-guarded in the code and
surfaces here as none). -/
def FallbackResourceArray.GetResource (arr : FallbackResourceArray)
    (index : Nat) : Option ImmutableTensor :=
  List.getD arr index none

/-- FallbackSetResource (lines 705-730): fail when the request state is
missing, otherwise store an immutable wrapper of the argument tensor in the
resource array at the attribute index and return a fresh chain (modelled by
returning the updated array). -/
def FallbackSetResource (request_state_present : Bool) (arg : FallbackArg)
    (index : Nat) (arr : FallbackResourceArray) :
    Except String FallbackResourceArray :=
  if !request_state_present then
    Except.error
      "KernelFallbackCompatRequestState not found in RequestContext."
  else
    Except.ok
      (FallbackResourceArray.SetResource arr index
        (ImmutableTensor.Create arg.tensor))

/-- FallbackGetResource (lines 734-765): fail when the request state is
missing, otherwise set results[i] to the resource stored at indices[i] for
every requested index. -/
def FallbackGetResource (request_state_present : Bool) (indices : List Nat)
    (arr : FallbackResourceArray) :
    Except String (List (Option ImmutableTensor)) :=
  if !request_state_present then
    Except.error
      "KernelFallbackCompatRequestState not found in RequestContext."
  else
    Except.ok (indices.map (FallbackResourceArray.GetResource arr))

/-! Helper lemmas shared by the claim theorems. -/

/-- Setting an index and reading the same index back returns the stored
wrapper, for any prior storage contents. -/
theorem setResource_getResource (t : ImmutableTensor) :
    ∀ (i : Nat) (arr : FallbackResourceArray),
      FallbackResourceArray.GetResource
        (FallbackResourceArray.SetResource arr i t) i = some t := by
  intro i
  induction i with
  | zero =>
    intro arr
    cases arr <;> rfl
  | succ n ih =>
    intro arr
    cases arr with
    | nil =>
      simpa [FallbackResourceArray.SetResource,
             FallbackResourceArray.GetResource] using ih []
    | cons x xs =>
      simpa [FallbackResourceArray.SetResource,
             FallbackResourceArray.GetResource] using ih xs

/-- A successful ConvertInputTensors means every single argument converted
successfully, in order. -/
theorem convertInputTensors_ok (ts : List Tensor) :
    ∀ (l : List (Except String Tensor)), ConvertInputTensors l = Except.ok ts →
      l = ts.map Except.ok := by
  induction ts with
  | nil =>
    intro l h
    cases l with
    | nil => rfl
    | cons a l' =>
      cases a with
      | error e => simp [ConvertInputTensors] at h
      | ok t =>
        simp only [ConvertInputTensors] at h
        cases hrec : ConvertInputTensors l' with
        | error e => rw [hrec] at h; simp at h
        | ok ts' => rw [hrec] at h; simp at h
  | cons t ts ih =>
    intro l h
    cases l with
    | nil => simp [ConvertInputTensors] at h
    | cons a l' =>
      cases a with
      | error e => simp [ConvertInputTensors] at h
      | ok t' =>
        simp only [ConvertInputTensors] at h
        cases hrec : ConvertInputTensors l' with
        | error e => rw [hrec] at h; simp at h
        | ok ts' =>
          rw [hrec] at h
          simp only [Except.ok.injEq, List.cons.injEq] at h
          obtain ⟨h1, h2⟩ := h
          subst h1
          subst h2
          simp [List.map, ih l' hrec]

/-- The dtype-checking loop walks past a matching block of elements, keeping
count of the zero-based index. -/
theorem validateDtypesFrom_skip (op_name : String) :
    ∀ (pre : List Tensor) (tyPre : List DataType),
      pre.length = tyPre.length →
      (∀ p ∈ pre.zip tyPre, p.1.dtype = p.2) →
      ∀ (ts : List Tensor) (tys : List DataType) (i : Nat),
        validateDtypesFrom op_name (pre ++ ts) (tyPre ++ tys) i =
          validateDtypesFrom op_name ts tys (i + pre.length) := by
  intro pre
  induction pre with
  | nil =>
    intro tyPre hlen _ ts tys i
    have : tyPre = [] := List.eq_nil_of_length_eq_zero hlen.symm
    subst this
    simp
  | cons t pre ih =>
    intro tyPre hlen hmatch ts tys i
    cases tyPre with
    | nil => simp at hlen
    | cons ty tyPre =>
      have hdt : t.dtype = ty := by
        apply hmatch (t, ty)
        rw [List.zip_cons_cons]
        exact List.mem_cons_self _ _
      have hrest : ∀ p ∈ pre.zip tyPre, p.1.dtype = p.2 := by
        intro p hp
        apply hmatch
        rw [List.zip_cons_cons]
        exact List.mem_cons_of_mem _ hp
      have hlen2 : pre.length = tyPre.length := by
        simpa using hlen
      simp only [List.cons_append, validateDtypesFrom, hdt, ne_eq,
        not_true_eq_false, if_false, ite_false]
      rw [show pre.append ts = pre ++ ts from rfl,
          show tyPre.append tys = tyPre ++ tys from rfl,
          ih tyPre hlen2 hrest ts tys (i + 1)]
      congr 1
      simp only [List.length_cons]
      omega

/-! Claim theorems. -/

/-- C1: for every failing op invocation, KernelFallbackEmitError synthesizes a
single error value whose message is composed from the op name and the
underlying status message and whose classification is the translated legacy
code, and writes that same error value into every declared output slot and,
when a completion-token slot is supplied, into the completion token, so all
observers see one identical error and never a partial result set. -/
theorem emitError_single_error_all_slots (op_name : String)
    (op_chain : Option AsyncValue) (results : List AsyncValue)
    (status : Status) :
    ∃ e : ErrorValue,
      e.message = "error running kernel fallback kernel " ++ op_name ++ ": " ++
        status.message ∧
      e.code = ConvertTfErrorCodeToTfrtErrorCode status.code ∧
      (KernelFallbackEmitError op_name op_chain results status).results =
        results.map (fun _ => AsyncValue.error e) ∧
      (KernelFallbackEmitError op_name op_chain results status).op_chain =
        op_chain.map (fun _ => AsyncValue.error e) :=
  ⟨mkFallbackError op_name status, rfl, rfl, rfl, rfl⟩

/-- C5: inserting into the runner table with a key that is already present
fails without overwriting: KernelFallbackCreateOp returns an already-exists
error naming the op for a duplicate key and the table keeps the first runner,
while after a successful insert Get returns the newly inserted runner. -/
theorem createOp_duplicate_key_fails_without_overwrite (table : RunnerTable)
    (k : Nat) (r0 runner : OpKernelRunner) (name : String) :
    (RunnerTable.Get table k = some r0 →
      KernelFallbackCreateOp true (Except.ok runner) k name table =
        (Except.error
          ("KernelFallbackCreateOp: OpKernelRunner already exists: " ++ name),
         table) ∧
      RunnerTable.Get
        (KernelFallbackCreateOp true (Except.ok runner) k name table).2 k =
        some r0) ∧
    (RunnerTable.Get table k = none →
      (KernelFallbackCreateOp true (Except.ok runner) k name table).1 =
        Except.ok () ∧
      RunnerTable.Get
        (KernelFallbackCreateOp true (Except.ok runner) k name table).2 k =
        some runner) := by
  constructor
  · intro h
    simp only [RunnerTable.Get] at h
    simp [KernelFallbackCreateOp, RunnerTable.Insert, RunnerTable.Get, h]
  · intro h
    simp only [RunnerTable.Get] at h
    simp [KernelFallbackCreateOp, RunnerTable.Insert, RunnerTable.Get, h,
          List.lookup]

/-- Closed instance of the C5 theorem at a concrete table: a duplicate insert
of key 7 fails, keeps the first runner, and a fresh insert of key 3 succeeds
and is then returned by Get. -/
theorem createOp_duplicate_key_fails_without_overwrite_witness :
    (KernelFallbackCreateOp true
        (Except.ok (OpKernelRunner.mk "AddV2" [DataType.DT_INT32] 1 false)) 7
        "tf.MatMul" [(7, OpKernelRunner.mk "MatMul" [] 1 false)] =
      (Except.error
        "KernelFallbackCreateOp: OpKernelRunner already exists: tf.MatMul",
       [(7, OpKernelRunner.mk "MatMul" [] 1 false)]) ∧
     RunnerTable.Get
       (KernelFallbackCreateOp true
         (Except.ok (OpKernelRunner.mk "AddV2" [DataType.DT_INT32] 1 false)) 7
         "tf.MatMul" [(7, OpKernelRunner.mk "MatMul" [] 1 false)]).2 7 =
       some (OpKernelRunner.mk "MatMul" [] 1 false)) ∧
    ((KernelFallbackCreateOp true
        (Except.ok (OpKernelRunner.mk "AddV2" [DataType.DT_INT32] 1 false)) 3
        "tf.AddV2" [(7, OpKernelRunner.mk "MatMul" [] 1 false)]).1 =
      Except.ok () ∧
     RunnerTable.Get
       (KernelFallbackCreateOp true
         (Except.ok (OpKernelRunner.mk "AddV2" [DataType.DT_INT32] 1 false)) 3
         "tf.AddV2" [(7, OpKernelRunner.mk "MatMul" [] 1 false)]).2 3 =
       some (OpKernelRunner.mk "AddV2" [DataType.DT_INT32] 1 false)) := by
  refine ⟨?_, ?_⟩
  · exact (createOp_duplicate_key_fails_without_overwrite
      [(7, OpKernelRunner.mk "MatMul" [] 1 false)] 7
      (OpKernelRunner.mk "MatMul" [] 1 false)
      (OpKernelRunner.mk "AddV2" [DataType.DT_INT32] 1 false) "tf.MatMul").1
      (by decide)
  · exact (createOp_duplicate_key_fails_without_overwrite
      [(7, OpKernelRunner.mk "MatMul" [] 1 false)] 3
      (OpKernelRunner.mk "MatMul" [] 1 false)
      (OpKernelRunner.mk "AddV2" [DataType.DT_INT32] 1 false) "tf.AddV2").2
      (by decide)

/-- C2: before dispatch, validation rejects an invocation whose argument
count differs from the declared input-type count; it separately rejects the
argument at the first offending position whose dtype differs from the
declared type, with an invalid-argument error naming the op, the zero-based
index, the expected type and the actual type; and on the core dispatch path
the failing validation status stops execution exactly when the op is not the
single exempted legacy op name "_BatchFunctionFallback". -/
theorem validation_rejects_count_and_dtype_mismatch :
    (∀ (op_name : String) (tensors : List Tensor) (types : List DataType),
      types.length ≠ tensors.length →
      ValidateInputTypes op_name tensors types =
        errorsInvalidArgument ("expected " ++ toString types.length ++
          " inputs, got " ++ toString tensors.length)) ∧
    (∀ (op_name : String) (pre ts : List Tensor) (tyPre tys : List DataType)
       (t : Tensor) (ty : DataType),
      pre.length = tyPre.length →
      (∀ p ∈ pre.zip tyPre, p.1.dtype = p.2) →
      ts.length = tys.length →
      t.dtype ≠ ty →
      ValidateInputTypes op_name (pre ++ t :: ts) (tyPre ++ ty :: tys) =
        errorsInvalidArgument ("cannot compute " ++ op_name ++
          " as input #" ++ toString pre.length ++
          "(zero-based) was expected to be a " ++ DataTypeString ty ++
          " tensor but is a " ++ DataTypeString t.dtype ++ " tensor")) ∧
    (∀ (op_name : String) (env : DispatchEnv) (results0 : List AsyncValue)
       (scratch0 : List Tensor) (run : OpKernelContextResult)
       (runner : OpKernelRunner) (tensors : List Tensor),
      env.request_state_present = true →
      env.runner_or_status = Except.ok runner →
      ConvertInputTensors env.arguments = Except.ok tensors →
      ((KernelFallbackExecuteCompatCoreRuntimeDispatch op_name env results0
          scratch0 run).executed = none ↔
        ((ValidateInputTypes op_name tensors runner.input_types).ok = false ∧
          op_name ≠ "_BatchFunctionFallback"))) := by
  refine ⟨?_, ?_, ?_⟩
  · intro op_name tensors types h
    simp [ValidateInputTypes, h]
  · intro op_name pre ts tyPre tys t ty hlen hpre hlen2 hne
    have hlens : (tyPre ++ ty :: tys).length = (pre ++ t :: ts).length := by
      simp [hlen, hlen2]
    rw [ValidateInputTypes, if_neg (by simp [hlens]),
        validateDtypesFrom_skip op_name pre tyPre hlen hpre (t :: ts)
          (ty :: tys) 0]
    simp [validateDtypesFrom, hne]
  · intro op_name env results0 scratch0 run runner tensors h1 h2 h3
    simp only [KernelFallbackExecuteCompatCoreRuntimeDispatch, h1, h2, h3,
      Bool.not_true, Bool.false_eq_true, if_false, ite_false]
    by_cases hc :
        (!(ValidateInputTypes op_name tensors runner.input_types).ok &&
          decide (op_name ≠ "_BatchFunctionFallback")) = true
    · simp only [hc, ite_true]
      simp only [Bool.and_eq_true, Bool.not_eq_true', decide_eq_true_iff]
        at hc
      simp [hc]
    · have hc2 : ¬((ValidateInputTypes op_name tensors
          runner.input_types).ok = false ∧
          op_name ≠ "_BatchFunctionFallback") := by
        intro hcontra
        apply absurd hc
        simp [hcontra.1, hcontra.2]
      cases hasync : runner.is_async <;> simp [hc2, hasync]

/-- Closed instance of the C2 theorem: a count mismatch on Add, a dtype
mismatch on Cast at index 0 with the full message, and the dispatch gate
stopping the non-exempt op Cast on that dtype mismatch. -/
theorem validation_rejects_count_and_dtype_mismatch_witness :
    ValidateInputTypes "Add" [] [DataType.DT_INT32] =
      errorsInvalidArgument "expected 1 inputs, got 0" ∧
    ValidateInputTypes "Cast" [Tensor.mk DataType.DT_FLOAT 0]
        [DataType.DT_INT32] =
      errorsInvalidArgument ("cannot compute Cast as input #0(zero-based)" ++
        " was expected to be a int32 tensor but is a float tensor") ∧
    (KernelFallbackExecuteCompatCoreRuntimeDispatch "Cast"
        (DispatchEnv.mk true
          (Except.ok (OpKernelRunner.mk "Cast" [DataType.DT_INT32] 1 false))
          [Except.ok (Tensor.mk DataType.DT_FLOAT 0)])
        [AsyncValue.unconstructed] []
        (OpKernelContextResult.mk Status.OK [])).executed = none := by
  refine ⟨?_, ?_, ?_⟩
  · exact validation_rejects_count_and_dtype_mismatch.1 "Add" []
      [DataType.DT_INT32] (by decide)
  · simpa using validation_rejects_count_and_dtype_mismatch.2.1 "Cast" [] []
      [] [] (Tensor.mk DataType.DT_FLOAT 0) DataType.DT_INT32 (by simp)
      (by simp) (by simp) (by decide)
  · exact (validation_rejects_count_and_dtype_mismatch.2.2 "Cast"
      (DispatchEnv.mk true
        (Except.ok (OpKernelRunner.mk "Cast" [DataType.DT_INT32] 1 false))
        [Except.ok (Tensor.mk DataType.DT_FLOAT 0)])
      [AsyncValue.unconstructed] [] (OpKernelContextResult.mk Status.OK [])
      (OpKernelRunner.mk "Cast" [DataType.DT_INT32] 1 false)
      [Tensor.mk DataType.DT_FLOAT 0] rfl rfl rfl).mpr
      ⟨by decide, by decide⟩

/-- C3: on the synchronous dispatch path a failing post-call status routes to
error translation, leaving all declared outputs and the completion token in
the same error state, while a success status moves every produced output into
its declared output slot as an immediately-available value and makes the
completion token immediately available. -/
theorem sync_dispatch_failure_or_success (runner : OpKernelRunner)
    (op_chain0 : Option AsyncValue) (results0 : List AsyncValue)
    (run : OpKernelContextResult) :
    (run.status.ok = false →
      KernelFallbackExecuteCompatSyncInternal runner op_chain0 results0 run =
        KernelFallbackEmitError runner.kernel_name op_chain0 results0
          run.status ∧
      ∃ e, (KernelFallbackExecuteCompatSyncInternal runner op_chain0 results0
          run).results = results0.map (fun _ => AsyncValue.error e) ∧
        (KernelFallbackExecuteCompatSyncInternal runner op_chain0 results0
          run).op_chain = op_chain0.map (fun _ => AsyncValue.error e)) ∧
    (run.status.ok = true →
      (KernelFallbackExecuteCompatSyncInternal runner op_chain0 results0
        run).results = run.outputs.map AsyncValue.availableTensor ∧
      (KernelFallbackExecuteCompatSyncInternal runner op_chain0 results0
        run).op_chain = op_chain0.map (fun _ => AsyncValue.availableChain)) := by
  constructor
  · intro h
    refine ⟨by simp [KernelFallbackExecuteCompatSyncInternal, h], ?_⟩
    refine ⟨mkFallbackError runner.kernel_name run.status, ?_, ?_⟩
    · simp [KernelFallbackExecuteCompatSyncInternal, h,
        KernelFallbackEmitError]
    · simp [KernelFallbackExecuteCompatSyncInternal, h,
        KernelFallbackEmitError]
  · intro h
    constructor <;> simp [KernelFallbackExecuteCompatSyncInternal, h]

/-- Closed instance of the C3 theorem: a failing Relu run errors both its
output slot and the token, and a successful Relu run makes the produced
tensor and the token immediately available. -/
theorem sync_dispatch_failure_or_success_witness :
    (KernelFallbackExecuteCompatSyncInternal
        (OpKernelRunner.mk "Relu" [DataType.DT_FLOAT] 1 false)
        (some AsyncValue.availableChain) [AsyncValue.unconstructed]
        (OpKernelContextResult.mk (Status.mk ErrorCode.INTERNAL "boom") []) =
      KernelFallbackEmitError "Relu" (some AsyncValue.availableChain)
        [AsyncValue.unconstructed] (Status.mk ErrorCode.INTERNAL "boom")) ∧
    ((KernelFallbackExecuteCompatSyncInternal
        (OpKernelRunner.mk "Relu" [DataType.DT_FLOAT] 1 false)
        (some AsyncValue.availableChain) [AsyncValue.unconstructed]
        (OpKernelContextResult.mk Status.OK
          [Tensor.mk DataType.DT_FLOAT 7])).results =
      [AsyncValue.availableTensor (Tensor.mk DataType.DT_FLOAT 7)] ∧
     (KernelFallbackExecuteCompatSyncInternal
        (OpKernelRunner.mk "Relu" [DataType.DT_FLOAT] 1 false)
        (some AsyncValue.availableChain) [AsyncValue.unconstructed]
        (OpKernelContextResult.mk Status.OK
          [Tensor.mk DataType.DT_FLOAT 7])).op_chain =
      some AsyncValue.availableChain) := by
  constructor
  · exact ((sync_dispatch_failure_or_success
      (OpKernelRunner.mk "Relu" [DataType.DT_FLOAT] 1 false)
      (some AsyncValue.availableChain) [AsyncValue.unconstructed]
      (OpKernelContextResult.mk (Status.mk ErrorCode.INTERNAL "boom") [])).1
      (by decide)).1
  · exact (sync_dispatch_failure_or_success
      (OpKernelRunner.mk "Relu" [DataType.DT_FLOAT] 1 false)
      (some AsyncValue.availableChain) [AsyncValue.unconstructed]
      (OpKernelContextResult.mk Status.OK
        [Tensor.mk DataType.DT_FLOAT 7])).2 (by decide)

/-- C4: on the asynchronous dispatch path the declared output slots and the
completion token are published unconstructed before RunAsync is invoked
(state after the three dispatch-thread events); when the completion callback
observes a failing status it sets every output and the token to one shared
error value directly on the callback thread, enqueueing nothing; on a
success status the outputs and token stay unconstructed until the unit of
work enqueued onto the owning runtime queue emplaces them. -/
theorem async_dispatch_publish_and_completion_order (kernel_name : String)
    (run : OpKernelContextResult) (s0 : AsyncSlots) :
    ((KernelFallbackExecuteCompatAsyncInternalTrace run).take 3 =
      [AsyncAction.publishChain, AsyncAction.publishResults,
       AsyncAction.invokeRunAsync] ∧
     runAsyncActions kernel_name run s0
        ((KernelFallbackExecuteCompatAsyncInternalTrace run).take 3) =
      AsyncSlots.mk (s0.results.map (fun _ => AsyncValue.unconstructed))
        AsyncValue.unconstructed) ∧
    (run.status.ok = false →
      KernelFallbackExecuteCompatAsyncInternalTrace run =
        [AsyncAction.publishChain, AsyncAction.publishResults,
         AsyncAction.invokeRunAsync, AsyncAction.callbackSetError] ∧
      runAsyncActions kernel_name run s0
          (KernelFallbackExecuteCompatAsyncInternalTrace run) =
        AsyncSlots.mk
          (s0.results.map (fun _ =>
            AsyncValue.error (asyncCallbackError kernel_name run.status)))
          (AsyncValue.error (asyncCallbackError kernel_name run.status))) ∧
    (run.status.ok = true →
      KernelFallbackExecuteCompatAsyncInternalTrace run =
        [AsyncAction.publishChain, AsyncAction.publishResults,
         AsyncAction.invokeRunAsync, AsyncAction.callbackEnqueueWork,
         AsyncAction.queueEmplaceOutputs] ∧
      runAsyncActions kernel_name run s0
          ((KernelFallbackExecuteCompatAsyncInternalTrace run).take 4) =
        AsyncSlots.mk (s0.results.map (fun _ => AsyncValue.unconstructed))
          AsyncValue.unconstructed ∧
      runAsyncActions kernel_name run s0
          (KernelFallbackExecuteCompatAsyncInternalTrace run) =
        AsyncSlots.mk (run.outputs.map AsyncValue.availableTensor)
          AsyncValue.availableChain) := by
  refine ⟨?_, ?_, ?_⟩
  · cases hok : run.status.ok <;>
      simp [KernelFallbackExecuteCompatAsyncInternalTrace, runAsyncActions,
        applyAsyncAction, hok]
  · intro hok
    simp [KernelFallbackExecuteCompatAsyncInternalTrace, runAsyncActions,
      applyAsyncAction, hok, List.map_map, Function.comp_def]
  · intro hok
    simp [KernelFallbackExecuteCompatAsyncInternalTrace, runAsyncActions,
      applyAsyncAction, hok]

/-- Closed instance of the C4 theorem: a one-output async kernel whose
callback sees a failing status leaves the slot and the token carrying the
same error without enqueued work, while a successful callback leaves them
unconstructed until the enqueued work emplaces the produced tensor. -/
theorem async_dispatch_publish_and_completion_order_witness :
    (runAsyncActions "MatMul"
        (OpKernelContextResult.mk (Status.mk ErrorCode.UNAVAILABLE "gone") [])
        (AsyncSlots.mk [AsyncValue.unconstructed] AsyncValue.unconstructed)
        (KernelFallbackExecuteCompatAsyncInternalTrace
          (OpKernelContextResult.mk
            (Status.mk ErrorCode.UNAVAILABLE "gone") [])) =
      AsyncSlots.mk
        [AsyncValue.error (asyncCallbackError "MatMul"
          (Status.mk ErrorCode.UNAVAILABLE "gone"))]
        (AsyncValue.error (asyncCallbackError "MatMul"
          (Status.mk ErrorCode.UNAVAILABLE "gone")))) ∧
    (runAsyncActions "MatMul"
        (OpKernelContextResult.mk Status.OK [Tensor.mk DataType.DT_FLOAT 42])
        (AsyncSlots.mk [AsyncValue.unconstructed] AsyncValue.unconstructed)
        ((KernelFallbackExecuteCompatAsyncInternalTrace
          (OpKernelContextResult.mk Status.OK
            [Tensor.mk DataType.DT_FLOAT 42])).take 4) =
      AsyncSlots.mk [AsyncValue.unconstructed] AsyncValue.unconstructed) ∧
    (runAsyncActions "MatMul"
        (OpKernelContextResult.mk Status.OK [Tensor.mk DataType.DT_FLOAT 42])
        (AsyncSlots.mk [AsyncValue.unconstructed] AsyncValue.unconstructed)
        (KernelFallbackExecuteCompatAsyncInternalTrace
          (OpKernelContextResult.mk Status.OK
            [Tensor.mk DataType.DT_FLOAT 42])) =
      AsyncSlots.mk
        [AsyncValue.availableTensor (Tensor.mk DataType.DT_FLOAT 42)]
        AsyncValue.availableChain) := by
  refine ⟨?_, ?_, ?_⟩
  · exact ((async_dispatch_publish_and_completion_order "MatMul"
      (OpKernelContextResult.mk (Status.mk ErrorCode.UNAVAILABLE "gone") [])
      (AsyncSlots.mk [AsyncValue.unconstructed]
        AsyncValue.unconstructed)).2.1 (by decide)).2
  · exact ((async_dispatch_publish_and_completion_order "MatMul"
      (OpKernelContextResult.mk Status.OK [Tensor.mk DataType.DT_FLOAT 42])
      (AsyncSlots.mk [AsyncValue.unconstructed]
        AsyncValue.unconstructed)).2.2 (by decide)).2.1
  · exact ((async_dispatch_publish_and_completion_order "MatMul"
      (OpKernelContextResult.mk Status.OK [Tensor.mk DataType.DT_FLOAT 42])
      (AsyncSlots.mk [AsyncValue.unconstructed]
        AsyncValue.unconstructed)).2.2 (by decide)).2.2

/-- C6: resource-array set/get round-trips through the FallbackSetResource
and FallbackGetResource kernels: a set at index i stores the immutable
wrapper of the argument tensor, a subsequent get at i returns that tensor
unchanged, a second set at i overwrites (last write wins), and repeated gets
of a once-set index return the same immutable value. -/
theorem resource_array_set_get_roundtrip (arr : FallbackResourceArray)
    (i : Nat) (a b : FallbackArg) :
    (∀ arr2, FallbackSetResource true a i arr = Except.ok arr2 →
      FallbackGetResource true [i] arr2 =
        Except.ok [some (ImmutableTensor.Create a.tensor)]) ∧
    (∀ arr2 arr3, FallbackSetResource true a i arr = Except.ok arr2 →
      FallbackSetResource true b i arr2 = Except.ok arr3 →
      FallbackGetResource true [i] arr3 =
        Except.ok [some (ImmutableTensor.Create b.tensor)]) ∧
    (∀ arr2, FallbackSetResource true a i arr = Except.ok arr2 →
      FallbackGetResource true [i, i] arr2 =
        Except.ok [some (ImmutableTensor.Create a.tensor),
                   some (ImmutableTensor.Create a.tensor)]) := by
  refine ⟨?_, ?_, ?_⟩
  · intro arr2 h
    simp [FallbackSetResource] at h
    subst h
    simp [FallbackGetResource, setResource_getResource]
  · intro arr2 arr3 h1 h2
    simp [FallbackSetResource] at h1 h2
    subst h1
    subst h2
    simp [FallbackGetResource, setResource_getResource]
  · intro arr2 h
    simp [FallbackSetResource] at h
    subst h
    simp [FallbackGetResource, setResource_getResource]

/-- Closed instance of the C6 theorem: set index 2 to an int32 tensor on an
empty resource array, get index 2 back, overwrite and get again. -/
theorem resource_array_set_get_roundtrip_witness :
    (∀ arr2, FallbackSetResource true
        (FallbackArg.mk (Tensor.mk DataType.DT_INT32 3) false false) 2 [] =
        Except.ok arr2 →
      FallbackGetResource true [2] arr2 =
        Except.ok [some (ImmutableTensor.mk (Tensor.mk DataType.DT_INT32 3))]) ∧
    (∀ arr2 arr3, FallbackSetResource true
        (FallbackArg.mk (Tensor.mk DataType.DT_INT32 3) false false) 2 [] =
        Except.ok arr2 →
      FallbackSetResource true
        (FallbackArg.mk (Tensor.mk DataType.DT_INT64 9) false false) 2 arr2 =
        Except.ok arr3 →
      FallbackGetResource true [2] arr3 =
        Except.ok [some (ImmutableTensor.mk (Tensor.mk DataType.DT_INT64 9))]) := by
  refine ⟨?_, ?_⟩
  · exact (resource_array_set_get_roundtrip [] 2
      (FallbackArg.mk (Tensor.mk DataType.DT_INT32 3) false false)
      (FallbackArg.mk (Tensor.mk DataType.DT_INT64 9) false false)).1
  · exact (resource_array_set_get_roundtrip [] 2
      (FallbackArg.mk (Tensor.mk DataType.DT_INT32 3) false false)
      (FallbackArg.mk (Tensor.mk DataType.DT_INT64 9) false false)).2.1

/-- C7: the thread-local tensor-copy sequence is cleared by the scope-guarded
cleanup on every exit path once it is installed — including the validation
early-return error path — and is untouched on the error returns that happen
before any use of the buffer, so an empty buffer stays empty across
invocations and a dispatched kernel observes exactly the converted arguments
of its own invocation; likewise for the BEF execute entry point, whose owned
copies and input values are rebuilt from its own arguments only. -/
theorem scratch_buffer_cleared_between_invocations (op_name : String)
    (env : DispatchEnv) (results0 : List AsyncValue) (scratch0 : List Tensor)
    (run : OpKernelContextResult) (kernel_runner : OpKernelRunner)
    (args : List FallbackArg) (op_chain : Option AsyncValue) :
    ((∀ runner tensors, env.request_state_present = true →
        env.runner_or_status = Except.ok runner →
        ConvertInputTensors env.arguments = Except.ok tensors →
        (KernelFallbackExecuteCompatCoreRuntimeDispatch op_name env results0
          scratch0 run).scratch_after = []) ∧
      (scratch0 = [] →
        (KernelFallbackExecuteCompatCoreRuntimeDispatch op_name env results0
          scratch0 run).scratch_after = []) ∧
      (∀ tensors, ConvertInputTensors env.arguments = Except.ok tensors →
        (KernelFallbackExecuteCompatCoreRuntimeDispatch op_name env results0
          scratch0 run).executed.isSome = true →
        (KernelFallbackExecuteCompatCoreRuntimeDispatch op_name env results0
          scratch0 run).exec_inputs = tensors)) ∧
    ((KernelFallbackExecuteOp op_name true kernel_runner args op_chain
        results0 scratch0 run).scratch_after = [] ∧
      (scratch0 = [] →
        (KernelFallbackExecuteOp op_name false kernel_runner args op_chain
          results0 scratch0 run).scratch_after = []) ∧
      (scratch0 = [] →
        (KernelFallbackExecuteOp op_name true kernel_runner args op_chain
          results0 scratch0 run).owned_copies = executeOpOwnedCopies args ∧
        (KernelFallbackExecuteOp op_name true kernel_runner args op_chain
          results0 scratch0 run).exec_inputs =
          args.map (fun a => a.tensor))) := by
  refine ⟨⟨?_, ?_, ?_⟩, ?_, ?_, ?_⟩
  · intro runner tensors h1 h2 h3
    simp only [KernelFallbackExecuteCompatCoreRuntimeDispatch, h1, h2, h3,
      Bool.not_true, Bool.false_eq_true, if_false, ite_false]
    split
    · rfl
    · split <;> rfl
  · intro hs
    subst hs
    simp only [KernelFallbackExecuteCompatCoreRuntimeDispatch]
    split
    · rfl
    · split
      · rfl
      · split
        · rfl
        · split
          · rfl
          · split <;> rfl
  · intro tensors h3 hex
    by_cases h1 : env.request_state_present = true
    · cases h2 : env.runner_or_status with
      | error s =>
        simp [KernelFallbackExecuteCompatCoreRuntimeDispatch, h1, h2] at hex
      | ok runner =>
        simp only [KernelFallbackExecuteCompatCoreRuntimeDispatch, h1, h2, h3,
          Bool.not_true, Bool.false_eq_true, if_false, ite_false] at hex ⊢
        revert hex
        split
        · intro hex
          simp at hex
        · intro _
          split <;> rfl
    · simp only [Bool.not_eq_true] at h1
      simp [KernelFallbackExecuteCompatCoreRuntimeDispatch, h1] at hex
  · simp only [KernelFallbackExecuteOp, Bool.not_true, Bool.false_eq_true,
      if_false, ite_false]
    split <;> rfl
  · intro hs
    subst hs
    simp [KernelFallbackExecuteOp]
  · intro hs
    subst hs
    constructor <;>
      · simp only [KernelFallbackExecuteOp, Bool.not_true, Bool.false_eq_true,
          if_false, ite_false, List.nil_append]
        split <;> rfl

/-- Closed instance of the C7 theorem: after a dispatched invocation left the
buffer empty, a second invocation with one argument executes on exactly its
own converted argument and again leaves the buffer empty. -/
theorem scratch_buffer_cleared_between_invocations_witness :
    (KernelFallbackExecuteCompatCoreRuntimeDispatch "Abs"
        (DispatchEnv.mk true
          (Except.ok (OpKernelRunner.mk "Abs" [DataType.DT_FLOAT] 1 false))
          [Except.ok (Tensor.mk DataType.DT_FLOAT 5)])
        [AsyncValue.unconstructed] [Tensor.mk DataType.DT_INT32 1]
        (OpKernelContextResult.mk Status.OK
          [Tensor.mk DataType.DT_FLOAT 5])).scratch_after = [] ∧
    (KernelFallbackExecuteCompatCoreRuntimeDispatch "Abs"
        (DispatchEnv.mk true
          (Except.ok (OpKernelRunner.mk "Abs" [DataType.DT_FLOAT] 1 false))
          [Except.ok (Tensor.mk DataType.DT_FLOAT 5)])
        [AsyncValue.unconstructed] [Tensor.mk DataType.DT_INT32 1]
        (OpKernelContextResult.mk Status.OK
          [Tensor.mk DataType.DT_FLOAT 5])).exec_inputs =
      [Tensor.mk DataType.DT_FLOAT 5] := by
  constructor
  · exact (scratch_buffer_cleared_between_invocations "Abs"
      (DispatchEnv.mk true
        (Except.ok (OpKernelRunner.mk "Abs" [DataType.DT_FLOAT] 1 false))
        [Except.ok (Tensor.mk DataType.DT_FLOAT 5)])
      [AsyncValue.unconstructed] [Tensor.mk DataType.DT_INT32 1]
      (OpKernelContextResult.mk Status.OK [Tensor.mk DataType.DT_FLOAT 5])
      (OpKernelRunner.mk "Abs" [DataType.DT_FLOAT] 1 false) [] none).1.1
      (OpKernelRunner.mk "Abs" [DataType.DT_FLOAT] 1 false)
      [Tensor.mk DataType.DT_FLOAT 5] rfl rfl rfl
  · exact (scratch_buffer_cleared_between_invocations "Abs"
      (DispatchEnv.mk true
        (Except.ok (OpKernelRunner.mk "Abs" [DataType.DT_FLOAT] 1 false))
        [Except.ok (Tensor.mk DataType.DT_FLOAT 5)])
      [AsyncValue.unconstructed] [Tensor.mk DataType.DT_INT32 1]
      (OpKernelContextResult.mk Status.OK [Tensor.mk DataType.DT_FLOAT 5])
      (OpKernelRunner.mk "Abs" [DataType.DT_FLOAT] 1 false) [] none).1.2.2
      [Tensor.mk DataType.DT_FLOAT 5] rfl (by decide)

/-- C8: on both dispatch entry points, a missing per-request compatibility
state stops the invocation before any kernel executes: a not-found setup
error is routed through KernelFallbackEmitError into every declared output
and the completion token. -/
theorem missing_request_state_emits_notfound (op_name : String)
    (env : DispatchEnv) (results0 : List AsyncValue) (scratch0 : List Tensor)
    (run : OpKernelContextResult) (kernel_runner : OpKernelRunner)
    (args : List FallbackArg) (op_chain : Option AsyncValue) :
    (env.request_state_present = false →
      ∃ e, e = mkFallbackError op_name (errorsNotFound
          "KernelFallbackCompatRequestState not found in RequestContext.") ∧
        e.code = TfrtErrorCode.kNotFound ∧
        (KernelFallbackExecuteCompatCoreRuntimeDispatch op_name env results0
          scratch0 run).executed = none ∧
        (KernelFallbackExecuteCompatCoreRuntimeDispatch op_name env results0
          scratch0 run).results =
          results0.map (fun _ => AsyncValue.error e) ∧
        (KernelFallbackExecuteCompatCoreRuntimeDispatch op_name env results0
          scratch0 run).op_chain = AsyncValue.error e) ∧
    (∃ e, e = mkFallbackError op_name (errorsNotFound
        "KernelFallbackCompatRequestState not found in RequestContext.") ∧
      (KernelFallbackExecuteOp op_name false kernel_runner args op_chain
        results0 scratch0 run).executed = none ∧
      (KernelFallbackExecuteOp op_name false kernel_runner args op_chain
        results0 scratch0 run).results =
        results0.map (fun _ => AsyncValue.error e) ∧
      (KernelFallbackExecuteOp op_name false kernel_runner args op_chain
        results0 scratch0 run).op_chain =
        op_chain.map (fun _ => AsyncValue.error e)) := by
  constructor
  · intro h
    refine ⟨mkFallbackError op_name (errorsNotFound
      "KernelFallbackCompatRequestState not found in RequestContext."),
      rfl, rfl, ?_, ?_, ?_⟩ <;>
      simp [KernelFallbackExecuteCompatCoreRuntimeDispatch, h,
        KernelFallbackEmitError, SlotStates.chainD]
  · refine ⟨mkFallbackError op_name (errorsNotFound
      "KernelFallbackCompatRequestState not found in RequestContext."),
      rfl, ?_, ?_, ?_⟩ <;>
      simp [KernelFallbackExecuteOp, KernelFallbackEmitError]

/-- Closed instance of the C8 theorem at a concrete one-output invocation
with the request state absent. -/
theorem missing_request_state_emits_notfound_witness :
    (KernelFallbackExecuteCompatCoreRuntimeDispatch "AddV2"
        (DispatchEnv.mk false
          (Except.ok (OpKernelRunner.mk "AddV2" [] 1 false)) [])
        [AsyncValue.unconstructed] []
        (OpKernelContextResult.mk Status.OK [])).executed = none := by
  obtain ⟨e, -, -, hexec, -, -⟩ :=
    (missing_request_state_emits_notfound "AddV2"
      (DispatchEnv.mk false (Except.ok (OpKernelRunner.mk "AddV2" [] 1 false))
        []) [AsyncValue.unconstructed] []
      (OpKernelContextResult.mk Status.OK [])
      (OpKernelRunner.mk "AddV2" [] 1 false) [] none).1 rfl
  exact hexec

/-- C9: on the core-runtime path every argument is converted from the generic
tensor representation before dispatch (a successful conversion means each
single argument converted, in order), and a failing conversion short-circuits
with an internal-classification error fanned out through error translation,
the runner never being invoked. -/
theorem conversion_failure_short_circuits (op_name : String)
    (env : DispatchEnv) (results0 : List AsyncValue) (scratch0 : List Tensor)
    (run : OpKernelContextResult) (runner : OpKernelRunner) (msg : String) :
    (env.request_state_present = true →
      env.runner_or_status = Except.ok runner →
      ConvertInputTensors env.arguments = Except.error msg →
      (KernelFallbackExecuteCompatCoreRuntimeDispatch op_name env results0
        scratch0 run).executed = none ∧
      ∃ e, e = mkFallbackError op_name (errorsInternal msg) ∧
        e.code = TfrtErrorCode.kInternal ∧
        (KernelFallbackExecuteCompatCoreRuntimeDispatch op_name env results0
          scratch0 run).results =
          results0.map (fun _ => AsyncValue.error e) ∧
        (KernelFallbackExecuteCompatCoreRuntimeDispatch op_name env results0
          scratch0 run).op_chain = AsyncValue.error e) ∧
    (∀ tensors, ConvertInputTensors env.arguments = Except.ok tensors →
      env.arguments = tensors.map Except.ok) := by
  constructor
  · intro h1 h2 h3
    refine ⟨?_, mkFallbackError op_name (errorsInternal msg), rfl, rfl,
      ?_, ?_⟩ <;>
      simp [KernelFallbackExecuteCompatCoreRuntimeDispatch, h1, h2, h3,
        KernelFallbackEmitError, SlotStates.chainD]
  · intro tensors h
    exact convertInputTensors_ok tensors env.arguments h

/-- Closed instance of the C9 theorem: a failing conversion of the second
argument stops dispatch with no execution, and a fully successful conversion
certifies every argument converted. -/
theorem conversion_failure_short_circuits_witness :
    ((KernelFallbackExecuteCompatCoreRuntimeDispatch "Pack"
        (DispatchEnv.mk true
          (Except.ok (OpKernelRunner.mk "Pack" [DataType.DT_INT32] 2 false))
          [Except.ok (Tensor.mk DataType.DT_INT32 1),
           Except.error "unsupported tensor"]) [AsyncValue.unconstructed] []
        (OpKernelContextResult.mk Status.OK [])).executed = none) ∧
    ([Except.ok (Tensor.mk DataType.DT_INT32 1)] :
        List (Except String Tensor)) =
      [Tensor.mk DataType.DT_INT32 1].map Except.ok := by
  constructor
  · exact ((conversion_failure_short_circuits "Pack"
      (DispatchEnv.mk true
        (Except.ok (OpKernelRunner.mk "Pack" [DataType.DT_INT32] 2 false))
        [Except.ok (Tensor.mk DataType.DT_INT32 1),
         Except.error "unsupported tensor"]) [AsyncValue.unconstructed] []
      (OpKernelContextResult.mk Status.OK [])
      (OpKernelRunner.mk "Pack" [DataType.DT_INT32] 2 false)
      "unsupported tensor").1 rfl rfl rfl).1
  · exact (conversion_failure_short_circuits "Pack"
      (DispatchEnv.mk true
        (Except.ok (OpKernelRunner.mk "Pack" [DataType.DT_INT32] 2 false))
        [Except.ok (Tensor.mk DataType.DT_INT32 1)]) [] []
      (OpKernelContextResult.mk Status.OK [])
      (OpKernelRunner.mk "Pack" [DataType.DT_INT32] 2 false) "").2
      [Tensor.mk DataType.DT_INT32 1] rfl

/-- C10: for an op named "_BatchFunctionFallback" the core dispatch path
proceeds to execute the kernel whatever the validation status — the
exemption guards the whole validation status, so even an argument-count
mismatch does not stop execution. -/
theorem batchFunctionFallback_exempt_from_all_validation
    (env : DispatchEnv) (results0 : List AsyncValue) (scratch0 : List Tensor)
    (run : OpKernelContextResult) (runner : OpKernelRunner)
    (tensors : List Tensor) :
    env.request_state_present = true →
    env.runner_or_status = Except.ok runner →
    ConvertInputTensors env.arguments = Except.ok tensors →
    (KernelFallbackExecuteCompatCoreRuntimeDispatch "_BatchFunctionFallback"
      env results0 scratch0 run).executed = some runner.is_async := by
  intro h1 h2 h3
  simp only [KernelFallbackExecuteCompatCoreRuntimeDispatch, h1, h2, h3,
    Bool.not_true, Bool.false_eq_true, if_false, ite_false]
  have hgate :
      (!(ValidateInputTypes "_BatchFunctionFallback" tensors
          runner.input_types).ok &&
        decide ("_BatchFunctionFallback" ≠ "_BatchFunctionFallback")) =
        false := by
    simp
  rw [if_neg (by simp [hgate])]
  cases hasync : runner.is_async <;> simp [hasync]

/-- Closed instance of the C10 theorem: with one int32 argument against two
declared input types (a count mismatch that validation rejects), the op
"_BatchFunctionFallback" is still dispatched. -/
theorem batchFunctionFallback_exempt_from_all_validation_witness :
    (ValidateInputTypes "_BatchFunctionFallback"
        [Tensor.mk DataType.DT_INT32 1]
        [DataType.DT_INT32, DataType.DT_INT32]).ok = false ∧
    (KernelFallbackExecuteCompatCoreRuntimeDispatch "_BatchFunctionFallback"
        (DispatchEnv.mk true
          (Except.ok (OpKernelRunner.mk "_BatchFunctionFallback"
            [DataType.DT_INT32, DataType.DT_INT32] 1 false))
          [Except.ok (Tensor.mk DataType.DT_INT32 1)])
        [AsyncValue.unconstructed] []
        (OpKernelContextResult.mk Status.OK
          [Tensor.mk DataType.DT_INT32 1])).executed = some false := by
  constructor
  · decide
  · exact batchFunctionFallback_exempt_from_all_validation
      (DispatchEnv.mk true
        (Except.ok (OpKernelRunner.mk "_BatchFunctionFallback"
          [DataType.DT_INT32, DataType.DT_INT32] 1 false))
        [Except.ok (Tensor.mk DataType.DT_INT32 1)])
      [AsyncValue.unconstructed] []
      (OpKernelContextResult.mk Status.OK [Tensor.mk DataType.DT_INT32 1])
      (OpKernelRunner.mk "_BatchFunctionFallback"
        [DataType.DT_INT32, DataType.DT_INT32] 1 false)
      [Tensor.mk DataType.DT_INT32 1] rfl rfl rfl

end KernelFallback
